import Mathlib

/-!
# GeoVoice enrichment pipeline — verification of the spec against the source

Shallow embedding of the batch enrichment scripts of the GeoVoice
repository (`update-countries.js`, `tools/update-images.js`,
`tools/translate-all.js`, `translate-spots.js`, `tools/fix-category.js`,
the year-inference scripts, and `src/components/Globe.jsx`), together
with proofs and refutations of the specified properties.

Conventions of the embedding:
* a nullable database column is an `Option`;
* the external record store is a `List Spot`; a page read of
  `range(a, b)` is `(store.drop a).take (b - a + 1)`;
* an `update_fields` call is recorded as a pair `(id, SpotPatch)` where
  the patch holds `some v` exactly for the columns present in the JS
  update payload;
* external providers (Gemini, Mapbox, Wikipedia, Pixabay) are
  parameters: functions from the request data to the response the
  provider would give;
* `lat`/`lon` are never inspected by the modelled control flow (they are
  only interpolated into request URLs), so they are not carried.
-/

/-- A point-of-interest record ("spot"), mirroring the columns of the
`spots` table that the enrichment scripts read or write. -/
structure Spot where
  id : Nat
  name : String
  description : Option String := none
  name_ja : Option String := none
  name_en : Option String := none
  name_zh : Option String := none
  name_es : Option String := none
  name_fr : Option String := none
  description_ja : Option String := none
  description_en : Option String := none
  description_zh : Option String := none
  description_es : Option String := none
  description_fr : Option String := none
  country : Option String := none
  country_ja : Option String := none
  image_url : Option String := none
  year : Option Int := none
  category : Option String := none
  deriving Repr, DecidableEq

/-- A partial-update payload for `update_fields`: `some v` exactly for
the columns present in the JS object passed to `.update(...)`. -/
structure SpotPatch where
  name_ja : Option String := none
  name_en : Option String := none
  name_zh : Option String := none
  name_es : Option String := none
  name_fr : Option String := none
  description_ja : Option String := none
  description_en : Option String := none
  description_zh : Option String := none
  description_es : Option String := none
  description_fr : Option String := none
  country : Option String := none
  country_ja : Option String := none
  image_url : Option String := none
  year : Option Int := none
  category : Option String := none
  deriving Repr, DecidableEq

/-- An issued write: `update_fields(id, patch)`. -/
abbrev UpdateCall := Nat × SpotPatch

/-! ## Dataset Scanner (pagination loop)

From `tools/translate-all.js` lines 28–54 (the same loop appears
verbatim in `tools/update-images.js` lines 51–78, `tools/fix-category.js`
lines 31–47 and the repair script): starting from `page = 0`, repeatedly
`range(page * pageSize, (page + 1) * pageSize - 1)`; if the page is
non-empty, append it and advance `page`, clearing `hasNext` when the
page is short (`data.length < pageSize`); an empty page also clears
`hasNext`. -/

/-- One page read: `range(p*P, (p+1)*P - 1)` returns at most `P` rows
starting at offset `p*P` in id order. -/
def readPage (store : List Spot) (offset limit : Nat) : List Spot :=
  (store.drop offset).take limit

/-- The pagination loop, with explicit fuel (the JS `while (hasNext)`).
Returns the accumulated rows and the number of page reads issued. -/
def scanPages (store : List Spot) (pageSize : Nat) :
    Nat → Nat → List Spot × Nat
  | 0, _ => ([], 0)
  | fuel + 1, page =>
    let data := readPage store (page * pageSize) pageSize
    if data.length > 0 then
      if data.length < pageSize then (data, 1)
      else
        let rest := scanPages store pageSize fuel (page + 1)
        (data ++ rest.1, rest.2 + 1)
    else ([], 1)

/-- The whole scan: enough fuel for every page of the store, starting at
page 0. -/
def scanAll (store : List Spot) (pageSize : Nat) : List Spot × Nat :=
  scanPages store pageSize (store.length / pageSize + 1) 0

lemma readPage_eq (store : List Spot) (offset limit : Nat) :
    readPage store offset limit = (store.drop offset).take limit := rfl

lemma scanPages_correct (store : List Spot) (P : Nat) (hP : 0 < P) :
    ∀ fuel page, (store.length - page * P) / P + 1 ≤ fuel →
      scanPages store P fuel page =
        (store.drop (page * P), (store.length - page * P) / P + 1) := by
  intro fuel
  induction fuel with
  | zero => intro page h; exact (Nat.not_succ_le_zero _ h).elim
  | succ n ih =>
    intro page h
    have hmP : (page + 1) * P = page * P + P := by ring
    have hRlen : (store.drop (page * P)).length = store.length - page * P :=
      List.length_drop _ _
    by_cases hbig : P ≤ store.length - page * P
    · -- a full page: recurse on the next page index
      have hdl : ((store.drop (page * P)).take P).length = P := by
        rw [List.length_take, hRlen]; omega
      have hdiv : (store.length - page * P) / P
          = (store.length - (page + 1) * P) / P + 1 := by
        rw [Nat.div_eq_sub_div hP hbig]
        have he : store.length - page * P - P
            = store.length - (page + 1) * P := by omega
        rw [he]
      have hfuel : (store.length - (page + 1) * P) / P + 1 ≤ n := by omega
      have hnext : store.drop ((page + 1) * P)
          = (store.drop (page * P)).drop P := by
        rw [List.drop_drop]; congr 1
      simp only [scanPages, readPage_eq, hdl]
      rw [if_pos hP, if_neg (lt_irrefl P), ih (page + 1) hfuel, hnext]
      rw [List.take_append_drop, hdiv]
    · -- a short (possibly empty) page: the loop stops here
      push_neg at hbig
      have htake : (store.drop (page * P)).take P = store.drop (page * P) :=
        List.take_of_length_le (by omega)
      have hdiv : (store.length - page * P) / P = 0 :=
        Nat.div_eq_of_lt hbig
      simp only [scanPages, readPage_eq, htake]
      by_cases hnil : store.length - page * P = 0
      · have hempty : store.drop (page * P) = [] :=
          List.eq_nil_of_length_eq_zero (by omega)
        rw [hempty]
        simp [hdiv, hnil]
      · have hpos : 0 < (store.drop (page * P)).length := by omega
        have hlt : (store.drop (page * P)).length < P := by omega
        rw [if_pos hpos, if_pos hlt, hdiv]

/-- The scan visits every record exactly once (in store order) and
issues `⌊N/P⌋ + 1` page reads. -/
lemma scanAll_eq (store : List Spot) (P : Nat) (hP : 0 < P) :
    scanAll store P = (store, store.length / P + 1) := by
  have h := scanPages_correct store P hP (store.length / P + 1) 0
  simp only [Nat.zero_mul, Nat.sub_zero, List.drop_zero] at h
  exact h (le_refl _)

example :
    (scanAll [{ id := 1, name := "a" }, { id := 2, name := "b" },
      { id := 3, name := "c" }] 2).2 = 2 := by decide

example :
    (scanAll [{ id := 1, name := "a" }, { id := 2, name := "b" }] 2).2 = 2 := by
  decide

/-! ## Shared string helpers of the scripts -/

/-- JS `a || b` for a nullable string `a`: the empty string is falsy, so
both `null` and `""` fall through to `b`. -/
def jsOrString (a : Option String) (b : String) : String :=
  match a with
  | some s => if s = "" then b else s
  | none => b

/-- ASCII whitespace, as JS `trim` strips (the JS set is larger, but
only these occur in the modelled data). -/
def isWsChar (c : Char) : Bool :=
  c = ' ' || c = '\t' || c = '\n' || c = '\r'

/-- Trim leading and trailing whitespace from a character list. -/
def trimList (l : List Char) : List Char :=
  ((l.dropWhile isWsChar).reverse.dropWhile isWsChar).reverse

/-- JS `s.trim()`. -/
def jsTrim (s : String) : String :=
  ⟨trimList s.data⟩

/-- JS `s.split('#')[0].trim()`: the part of the name before the first
`#` tag, trimmed. -/
def baseName (s : String) : String :=
  jsTrim ⟨s.data.takeWhile fun c => c ≠ '#'⟩

/-- `pre` is a prefix of `l`. -/
def isPrefixList : List Char → List Char → Bool
  | [], _ => true
  | _ :: _, [] => false
  | a :: as, b :: bs => a == b && isPrefixList as bs

/-- `needle` occurs contiguously in `hay`. -/
def isInfixList : List Char → List Char → Bool
  | needle, [] => needle.isEmpty
  | needle, c :: rest => isPrefixList needle (c :: rest) || isInfixList needle rest

/-- `needle` occurs somewhere in `hay` (JS `hay.includes(needle)`). -/
def containsStr (hay needle : String) : Bool :=
  isInfixList needle.data hay.data

/-- Remove every occurrence of `pat`, scanning left to right and
resuming after each match (JS `replace(/pat/g, "")`): `skip` counts
match characters still to be consumed. -/
def removeAllGo (pat : List Char) : Nat → List Char → List Char
  | _, [] => []
  | 0, c :: rest =>
    if isPrefixList pat (c :: rest) && !pat.isEmpty then
      removeAllGo pat (pat.length - 1) rest
    else c :: removeAllGo pat 0 rest
  | skip + 1, _ :: rest => removeAllGo pat skip rest

/-- Remove every occurrence of `pat` from `l`. -/
def removeAll (pat l : List Char) : List Char :=
  removeAllGo pat 0 l

/-! ## Reverse-geocoding script (`update-countries.js`)

Lines 22–30: fetch `spots` with `.is('country_ja', null)`.
Lines 38–65: per spot, call the Mapbox geocoder; with a feature, update
`{ country, country_ja }` to its text; with no feature, update
`{ country_ja: 'その他' }`; a thrown fetch/parse error is caught and the
loop advances. -/

/-- Outcome of the Mapbox reverse-geocoding call for one spot. -/
inductive GeoResult where
  | found (c : String)
  | noResult
  | failed
  deriving Repr, DecidableEq

/-- The selection query of `update-countries.js`:
`.is('country_ja', null)` — records whose `country_ja` is null. -/
def countryTargets (store : List Spot) : List Spot :=
  store.filter fun s => s.country_ja.isNone

/-- The write(s) issued for one selected spot. -/
def countryUpdateFor (geocode : Spot → GeoResult) (s : Spot) :
    List UpdateCall :=
  match geocode s with
  | .found c => [(s.id, { country := some c, country_ja := some c })]
  | .noResult => [(s.id, { country_ja := some "その他" })]
  | .failed => []

/-- All writes of one `update-countries.js` run, in store order. -/
def updateCountriesRun (geocode : Spot → GeoResult) (store : List Spot) :
    List UpdateCall :=
  (countryTargets store).flatMap (countryUpdateFor geocode)

/-! ## Image backfill script (`tools/update-images.js`)

Lines 83–119: for every scanned spot — the `if (spot.image_url)
continue;` guard is commented out, so no spot is skipped — build the
English and localized queries, try Wikipedia (En), then Pixabay (En),
then Pixabay (Ja), and update `{ image_url }` when some source hit. -/

/-- Which sources were invoked and what the chain returned. -/
structure ImageLookupTrace where
  result : Option String
  wikiCalled : Bool
  pixEnCalled : Bool
  pixJaCalled : Bool
  deriving Repr, DecidableEq

/-- The ordered fallback chain of lines 95–109: each later source is
consulted only while the result is still null. -/
def imageLookup (wiki pixEn pixJa : String → Option String)
    (qEn qJa : String) : ImageLookupTrace :=
  match wiki qEn with
  | some u => ⟨some u, true, false, false⟩
  | none =>
    match pixEn qEn with
    | some u => ⟨some u, true, true, false⟩
    | none => ⟨pixJa qJa, true, true, true⟩

/-- `(spot.name_en || spot.name).split('#')[0].trim()` (line 89). -/
def searchNameEn (s : Spot) : String := baseName (jsOrString s.name_en s.name)

/-- `(spot.name_ja || spot.name).split('#')[0].trim()` (line 90). -/
def searchNameJa (s : Spot) : String := baseName (jsOrString s.name_ja s.name)

/-- All writes of one `tools/update-images.js` run: an `image_url`
write for every spot whose chain hit, gap or no gap. -/
def updateImagesRun (wiki pixEn pixJa : String → Option String)
    (store : List Spot) : List UpdateCall :=
  store.flatMap fun s =>
    match (imageLookup wiki pixEn pixJa (searchNameEn s)
        (searchNameJa s)).result with
    | some u => [(s.id, { image_url := some u })]
    | none => []

/-! ## Category fixer (`tools/fix-category.js`)

Lines 52–93: for every scanned spot (no filter), ask the model for
"nature" or "history" and update `{ category }` with the answer; the
classification of line 70 is
`text.trim().toLowerCase().includes("nature") ? "nature" : "history"`.
A caught error advances the loop (after a cooldown and an index rewind
when the message contains "429"), so the per-spot argument below is the
final outcome of the possibly-retried call, `none` meaning it never
succeeded. -/

/-- JS `s.toLowerCase()` (ASCII; the categories involved are ASCII). -/
def jsToLower (s : String) : String :=
  ⟨s.data.map Char.toLower⟩

/-- Line 70: map the model's free text to a category. -/
def classifyCategory (text : String) : String :=
  if containsStr (jsToLower (jsTrim text)) "nature" then "nature" else "history"

/-- All writes of one `tools/fix-category.js` run. -/
def fixCategoryRun (classify : Spot → Option String) (store : List Spot) :
    List UpdateCall :=
  store.flatMap fun s =>
    match classify s with
    | some t => [(s.id, { category := some (classifyCategory t) })]
    | none => []

/-! ## Field Gap Detector -/

/-- The field gaps the spec's detector can report. -/
inductive GapField where
  | image | country | year | category
  | locJa | locEn | locZh | locEs | locFr
  deriving Repr, DecidableEq

/-- Modelled from the spec: the "present and strong" locale-pair
heuristic of §3 — the source has no single such predicate, only
scattered per-script filters (`translate-spots.js` line 38 checks
`description_en` emptiness, the repair script checks
`description_ja.length < 20`, from which the minimum length 20 is
taken); the non-Latin-script requirement is modelled as the name
containing a character at or beyond U+3000. -/
def strongPair (nonLatinScript : Bool) (nm ds : Option String) : Bool :=
  match nm, ds with
  | some n, some d =>
    n ≠ "" && d ≠ "" && decide (20 ≤ d.length) &&
      (!nonLatinScript || n.toList.any fun c => decide (0x3000 ≤ c.val.toNat))
  | _, _ => false

/-- Modelled from the spec: the Field Gap Detector of §4.3 is not one
function in the source (each script embeds its own filter), so the
spec's heuristics are taken verbatim: image gap iff `image_url` absent,
country gap iff both `country` and `country_ja` absent, year gap iff
`year` absent, category gap iff `category` absent (the source stores no
explicit placeholder value), locale gap iff the pair is not strong; the
locale set {ja, en, zh, es, fr} is the source's, ja and zh being the
non-Latin-script locales. -/
def detectGaps (r : Spot) : List GapField :=
  (if r.image_url.isNone then [GapField.image] else []) ++
  (if r.country.isNone && r.country_ja.isNone then [GapField.country] else []) ++
  (if r.year.isNone then [GapField.year] else []) ++
  (if r.category.isNone then [GapField.category] else []) ++
  (if !strongPair true r.name_ja r.description_ja then [GapField.locJa] else []) ++
  (if !strongPair false r.name_en r.description_en then [GapField.locEn] else []) ++
  (if !strongPair true r.name_zh r.description_zh then [GapField.locZh] else []) ++
  (if !strongPair false r.name_es r.description_es then [GapField.locEs] else []) ++
  (if !strongPair false r.name_fr r.description_fr then [GapField.locFr] else [])

/-- A fully-enriched record: every field present and strong. -/
def spotFull : Spot :=
  { id := 1
    name := "Kinkaku-ji #WorldHeritage"
    description := some "A famous golden temple in Kyoto, Japan."
    name_ja := some "金閣寺"
    name_en := some "Kinkaku-ji"
    name_zh := some "金閣寺"
    name_es := some "Kinkaku-ji"
    name_fr := some "Kinkaku-ji"
    description_ja := some "京都にある黄金の寺院。正式名称は鹿苑寺。大変有名な観光地です。"
    description_en := some "A famous golden temple in Kyoto, Japan."
    description_zh := some "位于京都的金色寺庙，正式名称为鹿苑寺，是非常有名的观光地。"
    description_es := some "Un famoso templo dorado en Kioto, Japon, muy visitado."
    description_fr := some "Un celebre temple dore a Kyoto, au Japon, tres visite."
    country := some "日本"
    country_ja := some "日本"
    image_url := some "https://old.example/kinkakuji.jpg"
    year := some 1397
    category := some "history" }

example : detectGaps spotFull = [] := by decide

/-! ## Translation loop (`translate-spots.js`)

Lines 44–104: a `for` loop over the target spots. Per iteration:
`generateContent` (which may throw), then code-fence stripping (line
65), then `JSON.parse` (a failure throws `"JSON Parse Error"`), then one
update per parsed row keyed by the row's own id. The `catch` (lines
93–103): a message containing `'429'` or `'Quota'` sleeps 60 s and does
`i--` (same item next iteration); any other caught error sleeps 2 s and
the loop advances. -/

/-- What the provider call does on a given (item index, attempt). -/
inductive ProviderOutcome where
  | throwRateLimit
  | throwOther
  | respond (text : String)
  deriving Repr, DecidableEq

/-- Line 65: `text.replace(/```json/g, "").replace(/```/g, "").trim()`. -/
def stripFences (s : String) : String :=
  ⟨trimList (removeAll "```".data (removeAll "```json".data s.data))⟩

/-- One element of the JSON array the model is asked for (line 56). -/
structure TransRow where
  id : Nat
  name_en : String
  desc_en : String
  name_zh : String
  desc_zh : String
  name_es : String
  desc_es : String
  name_fr : String
  desc_fr : String
  deriving Repr, DecidableEq

/-- The updates issued for the parsed rows (lines 74–86), keyed by the
id the response itself carries. -/
def writesOfRows (rows : List TransRow) : List UpdateCall :=
  rows.map fun t =>
    (t.id,
      { name_en := some t.name_en, description_en := some t.desc_en
        name_zh := some t.name_zh, description_zh := some t.desc_zh
        name_es := some t.name_es, description_es := some t.desc_es
        name_fr := some t.name_fr, description_fr := some t.desc_fr })

/-- The mutable state of the `for` loop: the index `i`, how many times
each item position was attempted, the writes issued so far, and the
pauses taken (60-second rate-limit cooldowns vs 2-second error waits). -/
structure LoopState where
  idx : Nat
  tries : List Nat
  writes : List UpdateCall
  cooldowns : Nat
  shortWaits : Nat
  deriving Repr, DecidableEq

/-- The loop's start state for `n` target items. -/
def initState (n : Nat) : LoopState :=
  ⟨0, List.replicate n 0, [], 0, 0⟩

/-- The `for` loop of lines 44–104, with explicit fuel. `behavior i a`
is what the provider call does on attempt `a` (0-based) for item `i`;
`parse` is `JSON.parse` on the fence-stripped text, `none` meaning the
throw of line 71. -/
def translateRun (behavior : Nat → Nat → ProviderOutcome)
    (parse : String → Option (List TransRow)) (items : List Spot) :
    Nat → LoopState → LoopState
  | 0, s => s
  | fuel + 1, s =>
    if s.idx < items.length then
      let attempt := s.tries.getD s.idx 0
      let s' := { s with tries := s.tries.set s.idx (attempt + 1) }
      match behavior s.idx attempt with
      | .throwRateLimit =>
        translateRun behavior parse items fuel
          { s' with cooldowns := s'.cooldowns + 1 }
      | .throwOther =>
        translateRun behavior parse items fuel
          { s' with shortWaits := s'.shortWaits + 1, idx := s.idx + 1 }
      | .respond text =>
        match parse (stripFences text) with
        | none =>
          translateRun behavior parse items fuel
            { s' with shortWaits := s'.shortWaits + 1, idx := s.idx + 1 }
        | some rows =>
          translateRun behavior parse items fuel
            { s' with writes := s'.writes ++ writesOfRows rows,
                      idx := s.idx + 1 }
    else s

/-! ## Year display and era input (`src/components/Globe.jsx`)

Lines 480–482: `getYearLabel`. Lines 220–222: the history-mode year
input, `parseInt(historyYearInput)` negated when the era selector says
`"BC"`. -/

/-- Lines 480–482: `if (!year) return '';
return year < 0 ? `BC ${Math.abs(year)}` : `AD ${year}`;` — a missing
year and the falsy year 0 both give the empty label. -/
def getYearLabel (year : Option Int) : String :=
  match year with
  | none => ""
  | some y =>
    if y = 0 then ""
    else if y < 0 then "BC " ++ toString y.natAbs
    else "AD " ++ toString y

/-- Lines 221–222: `let targetYear = parseInt(historyYearInput);
if (historyEra === "BC") targetYear = -targetYear;`. -/
def eraToStoredYear (era : String) (magnitude : Int) : Int :=
  if era = "BC" then -magnitude else magnitude

/-! ## Batched year-inference writer (the year scripts)

`src/unnamed/part_001` lines 71–76 and `src/unnamed/part_002` lines
48–53: `for (const [id, year] of Object.entries(yearMap)) {
if (year && !isNaN(year)) { update({ year: parseInt(year) }) } }`. The
parsed map's values are JSON values; numbers are modelled at the
integers the prompt asks for, strings and null are carried as
themselves. -/

/-- A JSON value as it can appear in the parsed year map. -/
inductive JsVal where
  | jnum (n : Int)
  | jstr (s : String)
  | jnull
  deriving Repr, DecidableEq

/-- JS truthiness: 0, `""` and `null` are falsy. -/
def jsTruthy : JsVal → Bool
  | .jnum n => n ≠ 0
  | .jstr s => s ≠ ""
  | .jnull => false

/-- A trimmed string that JS `Number(...)` accepts as a plain decimal
literal (optional sign, digits, optional fraction); the empty trimmed
string converts to 0, hence is numeric. Hex, exponent and `Infinity`
forms are not modelled. -/
def strIsNumericLiteral (s : String) : Bool :=
  match trimList s.data with
  | [] => true
  | t@(c :: cs) =>
    let body := if c = '-' || c = '+' then cs else t
    let ip := body.takeWhile Char.isDigit
    match body.drop ip.length with
    | [] => !ip.isEmpty
    | '.' :: fr => fr.all Char.isDigit && (!ip.isEmpty || !fr.isEmpty)
    | _ => false

/-- JS `isNaN(v)`: `ToNumber` of a number is itself, of `null` is 0, of
a string is NaN exactly when it is not a numeric literal. -/
def jsIsNaN : JsVal → Bool
  | .jnum _ => false
  | .jstr s => !strIsNumericLiteral s
  | .jnull => false

/-- The natural number denoted by a list of decimal digits. -/
def digitsToNat (l : List Char) : Nat :=
  l.foldl (fun a c => a * 10 + (c.toNat - 48)) 0

/-- JS `parseInt` on a string: trim, optional sign, then the leading
run of decimal digits; no digits means NaN (`none`). -/
def parseIntStr (s : String) : Option Int :=
  let t := trimList s.data
  let (sign, rest) :=
    match t with
    | '-' :: r => ((-1 : Int), r)
    | '+' :: r => ((1 : Int), r)
    | r => ((1 : Int), r)
  let digits := rest.takeWhile Char.isDigit
  if digits.isEmpty then none
  else some (sign * (digitsToNat digits : Int))

/-- JS `parseInt(v)`: the argument is first converted by `String(...)`;
an integer number round-trips to itself, `null` becomes the
unparseable `"null"`. -/
def jsParseInt : JsVal → Option Int
  | .jnum n => some n
  | .jstr s => parseIntStr s
  | .jnull => none

/-- The writes of the year loop: one `{ year: parseInt(value) }` update
per entry passing `value && !isNaN(value)` (`none` models a NaN
write). -/
def applyYearMap (entries : List (String × JsVal)) :
    List (String × Option Int) :=
  entries.flatMap fun e =>
    if jsTruthy e.2 && !jsIsNaN e.2 then [(e.1, jsParseInt e.2)] else []

example : applyYearMap [("123", JsVal.jnum 1603), ("124", JsVal.jnum (-2500))]
    = [("123", some 1603), ("124", some (-2500))] := by decide
example : applyYearMap [("123", JsVal.jnum 0)] = [] := by decide
example : applyYearMap [("123", JsVal.jstr "abc")] = [] := by decide
example : applyYearMap [("123", JsVal.jstr "0")] = [("123", some 0)] := by
  decide

/-! ## The claim predicate for writes ("only fills gaps") -/

/-- One field of a write fills a gap or repeats the stored value:
either the patch leaves the field out, or the record had no value, or
the written value equals the stored one. -/
def fillsOrKeeps {α : Type} [DecidableEq α] (cur new : Option α) : Bool :=
  match new with
  | none => true
  | some v => cur = none ∨ cur = some v

/-- The spec's write invariant, per record and patch: every field of the
patch either fills a gap of the record or repeats its value. -/
def writeFillsOrKeeps (r : Spot) (p : SpotPatch) : Bool :=
  fillsOrKeeps r.name_ja p.name_ja &&
  fillsOrKeeps r.name_en p.name_en &&
  fillsOrKeeps r.name_zh p.name_zh &&
  fillsOrKeeps r.name_es p.name_es &&
  fillsOrKeeps r.name_fr p.name_fr &&
  fillsOrKeeps r.description_ja p.description_ja &&
  fillsOrKeeps r.description_en p.description_en &&
  fillsOrKeeps r.description_zh p.description_zh &&
  fillsOrKeeps r.description_es p.description_es &&
  fillsOrKeeps r.description_fr p.description_fr &&
  fillsOrKeeps r.country p.country &&
  fillsOrKeeps r.country_ja p.country_ja &&
  fillsOrKeeps r.image_url p.image_url &&
  fillsOrKeeps r.year p.year &&
  fillsOrKeeps r.category p.category

/-! ## Concrete fixtures for counterexamples and witnesses -/

/-- A two-record store: page size 2 divides its length. -/
def store2 : List Spot :=
  [{ id := 1, name := "a" }, { id := 2, name := "b" }]

/-- A three-record store. -/
def store3 : List Spot :=
  [{ id := 1, name := "a" }, { id := 2, name := "b" }, { id := 3, name := "c" }]

/-- A record whose `category` already holds a non-default value. -/
def rCat : Spot :=
  { id := 2, name := "Tokyo Tower #Landmark", category := some "modern" }

/-- A record with `country` present but `country_ja` absent. -/
def rHalf : Spot :=
  { id := 3, name := "Mystery Isle", country := some "日本" }

/-- A record in the open ocean: no country fields at all. -/
def rOcean : Spot :=
  { id := 7, name := "Pacific Point" }

/-- A concrete parsed translation row. -/
def rowB : TransRow :=
  ⟨9, "Name En", "Desc En", "Name Zh", "Desc Zh", "Name Es", "Desc Es",
    "Name Fr", "Desc Fr"⟩

/-! ## The claims -/

/-- **C2** (corrected). For a store of `N` records and page size `P > 0`
the scanner accumulates every record exactly once, in order, and
terminates on the first short or empty page — but it issues
`⌊N/P⌋ + 1` page reads, which equals the claimed `⌈N/P⌉` only when `P`
does not divide `N` (an exact multiple costs one extra empty read). -/
theorem C2_pagination (store : List Spot) (P : Nat) (hP : 0 < P) :
    scanAll store P = (store, store.length / P + 1) ∧
    (¬ P ∣ store.length →
      store.length / P + 1 = (store.length + P - 1) / P) := by
  refine ⟨scanAll_eq store P hP, fun hnd => ?_⟩
  obtain ⟨q, r, hqr, hrP⟩ : ∃ q r, store.length = P * q + r ∧ r < P :=
    ⟨store.length / P, store.length % P,
      (Nat.div_add_mod store.length P).symm, Nat.mod_lt _ hP⟩
  have hr0 : r ≠ 0 := by
    intro h0
    exact hnd ⟨q, by omega⟩
  have hq : store.length / P = q := by
    rw [hqr, Nat.mul_add_div hP, Nat.div_eq_of_lt hrP, Nat.add_zero]
  have hceil : (store.length + P - 1) / P = q + 1 := by
    have hpq : P * (q + 1) = P * q + P := by ring
    have he : store.length + P - 1 = P * (q + 1) + (r - 1) := by omega
    rw [he, Nat.mul_add_div hP, Nat.div_eq_of_lt (by omega : r - 1 < P),
      Nat.add_zero]
  rw [hq, hceil]

/-- Witness for C2 at a three-record store and page size 2. -/
theorem C2_pagination_witness :
    scanAll store3 2 = (store3, 2) ∧
    (¬ 2 ∣ store3.length → store3.length / 2 + 1 = (store3.length + 2 - 1) / 2) :=
  C2_pagination store3 2 (by decide)

/-- **C2 counterexample**: with 2 records and page size 2 the scanner
issues 2 page reads, not `⌈2/2⌉ = 1` — the claimed read count is wrong
on exact multiples. -/
theorem C2_pagination_counterexample :
    (scanAll store2 2).2 = 2 ∧ (store2.length + 2 - 1) / 2 = 1 ∧
    (scanAll store2 2).2 ≠ (store2.length + 2 - 1) / 2 := by decide

/-- **C1 counterexample**: `spotFull` has no gaps at all, yet one run of
the image tool — whose gap check `if (spot.image_url) continue;` is
commented out — issues an `update_fields` write for it as soon as the
first source returns a hit. -/
theorem C1_idempotence_counterexample :
    detectGaps spotFull = [] ∧
    updateImagesRun (fun _ => some "https://upload.wikimedia.org/k.jpg")
        (fun _ => none) (fun _ => none) [spotFull]
      = [(1, { image_url := some "https://upload.wikimedia.org/k.jpg" })] := by
  decide

/-- **C1** (amended). Zero writes for a gap-free record hold only
conditionally: the country script skips it because its `country_ja` is
present (not because the detector reports no country gap), and the
image tool skips it only when every image source returns no result —
a hit is written even though no gap existed. -/
theorem C1_idempotence_amended (r : Spot) (geocode : Spot → GeoResult)
    (wiki pixEn pixJa : String → Option String)
    (hgaps : detectGaps r = [])
    (hcj : r.country_ja ≠ none)
    (hw : wiki (searchNameEn r) = none)
    (hpe : pixEn (searchNameEn r) = none)
    (hpj : pixJa (searchNameJa r) = none) :
    updateCountriesRun geocode [r] = [] ∧
    updateImagesRun wiki pixEn pixJa [r] = [] := by
  constructor
  · unfold updateCountriesRun countryTargets
    cases h : r.country_ja with
    | none => exact absurd h hcj
    | some v => simp [List.filter, h]
  · simp [updateImagesRun, imageLookup, hw, hpe, hpj]

/-- Witness for C1 (amended) at the gap-free record with all sources
empty. -/
theorem C1_idempotence_amended_witness :
    updateCountriesRun (fun _ => GeoResult.failed) [spotFull] = [] ∧
    updateImagesRun (fun _ => none) (fun _ => none) (fun _ => none)
      [spotFull] = [] :=
  C1_idempotence_amended spotFull (fun _ => GeoResult.failed)
    (fun _ => none) (fun _ => none) (fun _ => none)
    (by decide) (by decide) rfl rfl rfl

/-- **C5 counterexample**: a record with `country` present but
`country_ja` absent *is* selected by `update-countries.js`, whose query
is `.is('country_ja', null)` — selection is on `country_ja` alone, not
on both fields being absent. -/
theorem C5_country_gap_counterexample :
    countryTargets [rHalf] = [rHalf] ∧
    rHalf.country = some "日本" ∧ rHalf.country_ja = none := by decide

/-- **C5** (amended). A record is selected for country enrichment iff it
is in the store and its `country_ja` is absent; the `country` field is
not consulted. -/
theorem C5_country_gap_amended (store : List Spot) (s : Spot) :
    s ∈ countryTargets store ↔ s ∈ store ∧ s.country_ja = none := by
  unfold countryTargets
  simp [List.mem_filter, Option.isNone_iff_eq_none]

/-- **C8 (confirmed)**: a selected record whose coordinates reverse-
geocode to no feature gets the sentinel write
`{ country_ja: 'その他' }` — it is neither skipped nor an error, and
the records before and after it are processed as usual. -/
theorem C8_ocean_sentinel (geocode : Spot → GeoResult) (s : Spot)
    (xs ys : List Spot)
    (hcj : s.country_ja = none) (hno : geocode s = GeoResult.noResult) :
    updateCountriesRun geocode (xs ++ s :: ys)
      = updateCountriesRun geocode xs
        ++ (s.id, { country_ja := some "その他" })
          :: updateCountriesRun geocode ys := by
  unfold updateCountriesRun countryTargets
  rw [List.filter_append, List.flatMap_append]
  congr 1
  rw [List.filter_cons_of_pos (by simp [hcj]), List.flatMap_cons]
  unfold countryUpdateFor
  rw [hno, List.singleton_append]

/-- Witness for C8 at a one-record ocean store. -/
theorem C8_ocean_sentinel_witness :
    updateCountriesRun (fun _ => GeoResult.noResult) [rOcean]
      = [(7, { country_ja := some "その他" })] :=
  C8_ocean_sentinel (fun _ => GeoResult.noResult) rOcean [] [] rfl rfl

/-! ## Full translation pass (`tools/translate-all.js`)

Lines 59–97: for every scanned spot — the "already translated" skip of
lines 62–63 is commented out — ask the model for all five locale
name/description pairs and update the ten columns with whatever it
returned. The catch of lines 104–110 sleeps 60 s and rewinds the index
on a '429' message, so the per-spot argument below is the final outcome
of the possibly-retried call, `none` meaning it never succeeded. -/

/-- The parsed JSON object of lines 70–77: five `{name, desc}` pairs. -/
structure TransAllRow where
  ja_name : String
  ja_desc : String
  en_name : String
  en_desc : String
  zh_name : String
  zh_desc : String
  es_name : String
  es_desc : String
  fr_name : String
  fr_desc : String
  deriving Repr, DecidableEq

/-- The update payload of lines 88–94: exactly the ten locale columns,
set to the model's values. -/
def transAllPatch (t : TransAllRow) : SpotPatch :=
  { name_ja := some t.ja_name, description_ja := some t.ja_desc
    name_en := some t.en_name, description_en := some t.en_desc
    name_zh := some t.zh_name, description_zh := some t.zh_desc
    name_es := some t.es_name, description_es := some t.es_desc
    name_fr := some t.fr_name, description_fr := some t.fr_desc }

/-- All writes of one `tools/translate-all.js` run: one ten-column
write per spot whose call succeeded, with no gap check. -/
def translateAllRun (gen : Spot → Option TransAllRow) (store : List Spot) :
    List UpdateCall :=
  store.flatMap fun s =>
    match gen s with
    | some t => [(s.id, transAllPatch t)]
    | none => []

/-- A record whose ja/en locale pairs are already present. -/
def rLoc : Spot :=
  { id := 4, name := "Ginkaku-ji"
    name_ja := some "銀閣寺"
    description_ja := some "京都にある銀閣として知られる寺院です。"
    name_en := some "Ginkaku-ji"
    description_en := some "A temple in Kyoto known as the Silver Pavilion." }

/-- A model response differing from `rLoc`'s stored values. -/
def rowT : TransAllRow :=
  ⟨"新しい名前", "新しい説明", "New Name", "New Desc", "新名称", "新说明",
    "Nombre", "Desc Es", "Nom", "Desc Fr"⟩

/-- **C4 counterexample**: both cited scripts overwrite present values.
`fix-category.js` reclassifies every record, replacing the stored
non-default category "modern" with "history"; `translate-all.js`
rewrites the ten locale columns of a record whose pairs were already
present — writes that neither fill a gap nor leave the existing value
intact. -/
theorem C4_gap_fill_counterexample :
    (fixCategoryRun (fun _ => some "history") [rCat]
        = [(2, { category := some "history" })] ∧
      writeFillsOrKeeps rCat { category := some "history" } = false) ∧
    (translateAllRun (fun _ => some rowT) [rLoc]
        = [(4, transAllPatch rowT)] ∧
      writeFillsOrKeeps rLoc (transAllPatch rowT) = false) := by
  decide

lemma classifyCategory_cases (t : String) :
    classifyCategory t = "nature" ∨ classifyCategory t = "history" := by
  unfold classifyCategory
  by_cases h : containsStr (jsToLower (jsTrim t)) "nature" = true
  · exact Or.inl (if_pos h)
  · exact Or.inr (if_neg h)

/-- **C4** (amended). Writes are field-partial but do not only fill
gaps: every category-fixer write sets exactly one column, `category`,
to "nature" or "history"; every translate-all write is for a store
record whose call succeeded and sets exactly the ten locale
name/description columns to the model's returned values; and both
scripts process every record unconditionally — in particular a record
whose locale pairs are already present still receives the ten-column
write, so existing present values can be replaced. -/
theorem C4_gap_fill_amended :
    (∀ (classify : Spot → Option String) (store : List Spot) (i : Nat)
        (p : SpotPatch), (i, p) ∈ fixCategoryRun classify store →
      (p.category = some "nature" ∨ p.category = some "history") ∧
      p.name_ja = none ∧ p.name_en = none ∧ p.name_zh = none ∧
      p.name_es = none ∧ p.name_fr = none ∧
      p.description_ja = none ∧ p.description_en = none ∧
      p.description_zh = none ∧ p.description_es = none ∧
      p.description_fr = none ∧
      p.country = none ∧ p.country_ja = none ∧ p.image_url = none ∧
      p.year = none) ∧
    (∀ (gen : Spot → Option TransAllRow) (store : List Spot) (i : Nat)
        (p : SpotPatch), (i, p) ∈ translateAllRun gen store →
      ∃ s t, s ∈ store ∧ gen s = some t ∧ i = s.id ∧
        p = transAllPatch t) ∧
    (∀ (gen : Spot → Option TransAllRow) (store : List Spot) (s : Spot)
        (t : TransAllRow), s ∈ store → gen s = some t →
      (s.id, transAllPatch t) ∈ translateAllRun gen store) := by
  refine ⟨?_, ?_, ?_⟩
  · intro classify store i p hw
    induction store with
    | nil => simp [fixCategoryRun] at hw
    | cons s rest ih =>
      unfold fixCategoryRun at hw
      rw [List.flatMap_cons] at hw
      rcases List.mem_append.mp hw with hhead | htail
      · cases hc : classify s with
        | none => rw [hc] at hhead; simp at hhead
        | some t =>
          rw [hc] at hhead
          simp only [List.mem_singleton, Prod.mk.injEq] at hhead
          obtain ⟨-, hp⟩ := hhead
          subst hp
          refine ⟨?_, rfl, rfl, rfl, rfl, rfl, rfl, rfl, rfl, rfl, rfl,
            rfl, rfl, rfl, rfl⟩
          rcases classifyCategory_cases t with h | h
          · exact Or.inl (congrArg some h)
          · exact Or.inr (congrArg some h)
      · exact ih htail
  · intro gen store i p hw
    unfold translateAllRun at hw
    rw [List.mem_flatMap] at hw
    obtain ⟨s, hs, hmem⟩ := hw
    cases hg : gen s with
    | none => rw [hg] at hmem; simp at hmem
    | some t =>
      rw [hg] at hmem
      simp only [List.mem_singleton, Prod.mk.injEq] at hmem
      exact ⟨s, t, hs, hg, hmem.1, hmem.2⟩
  · intro gen store s t hs hg
    unfold translateAllRun
    rw [List.mem_flatMap]
    refine ⟨s, hs, ?_⟩
    rw [hg]
    exact List.mem_singleton_self _

/-- Witness for C4 (amended): the record whose ja/en pairs are already
present still receives the ten-column write. -/
theorem C4_gap_fill_amended_witness :
    (rLoc.id, transAllPatch rowT)
      ∈ translateAllRun (fun _ => some rowT) [rLoc] :=
  C4_gap_fill_amended.2.2 (fun _ => some rowT) [rLoc] rLoc rowT
    (by decide) rfl

/-- **C6 (confirmed)**: era input of magnitude 2500 with selector "BC"
is stored as -2500, magnitude 1603 with "AD" as +1603, and
`getYearLabel` renders -2500 as "BC 2500" and 1603 as "AD 1603". -/
theorem C6_year_round_trip :
    eraToStoredYear "BC" 2500 = -2500 ∧
    eraToStoredYear "AD" 1603 = 1603 ∧
    getYearLabel (some (-2500)) = "BC 2500" ∧
    getYearLabel (some 1603) = "AD 1603" := by decide

/-- **C7 (confirmed)**: the image chain consults Wikipedia (En), then
Pixabay (En), then Pixabay (Ja), in that order; if the first source
misses and the second hits with `u`, the stored `image_url` is `u` and
the third source is never invoked; if all three miss, the record simply
gets no image write (and no error). -/
theorem C7_image_fallback (wiki pixEn pixJa : String → Option String)
    (s : Spot) (u : String) :
    (imageLookup wiki pixEn pixJa (searchNameEn s)
        (searchNameJa s)).wikiCalled = true ∧
    (wiki (searchNameEn s) = none → pixEn (searchNameEn s) = some u →
      (imageLookup wiki pixEn pixJa (searchNameEn s)
          (searchNameJa s)).result = some u ∧
      (imageLookup wiki pixEn pixJa (searchNameEn s)
          (searchNameJa s)).pixJaCalled = false ∧
      updateImagesRun wiki pixEn pixJa [s]
        = [(s.id, { image_url := some u })]) ∧
    (wiki (searchNameEn s) = none → pixEn (searchNameEn s) = none →
      pixJa (searchNameJa s) = none →
      (imageLookup wiki pixEn pixJa (searchNameEn s)
          (searchNameJa s)).result = none ∧
      updateImagesRun wiki pixEn pixJa [s] = []) := by
  refine ⟨?_, fun hw hpe => ?_, fun hw hpe hpj => ?_⟩
  · unfold imageLookup
    cases wiki (searchNameEn s) <;> cases pixEn (searchNameEn s) <;> rfl
  · constructor
    · simp [imageLookup, hw, hpe]
    constructor
    · simp [imageLookup, hw, hpe]
    · simp [updateImagesRun, imageLookup, hw, hpe]
  · constructor
    · simp [imageLookup, hw, hpe, hpj]
    · simp [updateImagesRun, imageLookup, hw, hpe, hpj]

/-- Witness for C7: Wikipedia misses, Pixabay (En) hits. -/
theorem C7_image_fallback_witness :
    (imageLookup (fun _ => none) (fun _ => some "https://pix.example/p.jpg")
        (fun _ => none) (searchNameEn spotFull)
        (searchNameJa spotFull)).wikiCalled = true ∧
    ((fun (_ : String) => (none : Option String)) (searchNameEn spotFull)
        = none →
      (fun (_ : String) => some "https://pix.example/p.jpg")
          (searchNameEn spotFull) = some "https://pix.example/p.jpg" →
      (imageLookup (fun _ => none)
          (fun _ => some "https://pix.example/p.jpg") (fun _ => none)
          (searchNameEn spotFull) (searchNameJa spotFull)).result
        = some "https://pix.example/p.jpg" ∧
      (imageLookup (fun _ => none)
          (fun _ => some "https://pix.example/p.jpg") (fun _ => none)
          (searchNameEn spotFull) (searchNameJa spotFull)).pixJaCalled
        = false ∧
      updateImagesRun (fun _ => none)
          (fun _ => some "https://pix.example/p.jpg") (fun _ => none)
          [spotFull]
        = [(spotFull.id, { image_url := some "https://pix.example/p.jpg" })]) ∧
    ((fun (_ : String) => (none : Option String)) (searchNameEn spotFull)
        = none →
      (fun (_ : String) => some "https://pix.example/p.jpg")
          (searchNameEn spotFull) = none →
      (fun (_ : String) => (none : Option String)) (searchNameJa spotFull)
        = none →
      (imageLookup (fun _ => none)
          (fun _ => some "https://pix.example/p.jpg") (fun _ => none)
          (searchNameEn spotFull) (searchNameJa spotFull)).result = none ∧
      updateImagesRun (fun _ => none)
          (fun _ => some "https://pix.example/p.jpg") (fun _ => none)
          [spotFull] = []) :=
  C7_image_fallback (fun _ => none) (fun _ => some "https://pix.example/p.jpg")
    (fun _ => none) spotFull "https://pix.example/p.jpg"

/-- A second concrete parsed translation row. -/
def rowA : TransRow :=
  ⟨8, "A En", "A Desc En", "A Zh", "A Desc Zh", "A Es", "A Desc Es",
    "A Fr", "A Desc Fr"⟩

/-- **C3 (confirmed)**: on a rate-limit throw the loop takes one long
cooldown and rewinds the index, so the same item is retried next
iteration — with success on the second attempt the item is attempted
twice (`tries = [2, 1]`), its translation is written, and exactly one
cooldown was taken; on any other transient error there is no rewind and
no cooldown: the item is attempted once and the loop advances. -/
theorem C3_rate_limit_retry (a b : Spot)
    (behA behB : Nat → Nat → ProviderOutcome)
    (parse : String → Option (List TransRow))
    (t0 t1 : String) (r0 r1 : List TransRow)
    (hA00 : behA 0 0 = ProviderOutcome.throwRateLimit)
    (hA01 : behA 0 1 = ProviderOutcome.respond t0)
    (hA10 : behA 1 0 = ProviderOutcome.respond t1)
    (hp0 : parse (stripFences t0) = some r0)
    (hp1 : parse (stripFences t1) = some r1)
    (hB00 : behB 0 0 = ProviderOutcome.throwOther)
    (hB10 : behB 1 0 = ProviderOutcome.respond t1) :
    translateRun behA parse [a, b] 3 (initState 2)
      = ⟨2, [2, 1], writesOfRows r0 ++ writesOfRows r1, 1, 0⟩ ∧
    translateRun behB parse [a, b] 2 (initState 2)
      = ⟨2, [1, 1], writesOfRows r1, 0, 1⟩ := by
  constructor <;>
    simp [translateRun, initState, hA00, hA01, hA10, hp0, hp1, hB00, hB10,
      List.set, List.getD]

/-- Witness for C3 with a concrete provider script. -/
theorem C3_rate_limit_retry_witness :
    translateRun
        (fun i att => if i = 0 then
          (if att = 0 then ProviderOutcome.throwRateLimit
           else ProviderOutcome.respond "A")
          else ProviderOutcome.respond "B")
        (fun s => if s = "A" then some [rowA]
          else if s = "B" then some [rowB] else none)
        store2 3 (initState 2)
      = ⟨2, [2, 1], writesOfRows [rowA] ++ writesOfRows [rowB], 1, 0⟩ ∧
    translateRun
        (fun i _ => if i = 0 then ProviderOutcome.throwOther
          else ProviderOutcome.respond "B")
        (fun s => if s = "A" then some [rowA]
          else if s = "B" then some [rowB] else none)
        store2 2 (initState 2)
      = ⟨2, [1, 1], writesOfRows [rowB], 0, 1⟩ := by
  have h := C3_rate_limit_retry store2[0] store2[1]
    (fun i att => if i = 0 then
      (if att = 0 then ProviderOutcome.throwRateLimit
       else ProviderOutcome.respond "A")
      else ProviderOutcome.respond "B")
    (fun i _ => if i = 0 then ProviderOutcome.throwOther
      else ProviderOutcome.respond "B")
    (fun s => if s = "A" then some [rowA]
      else if s = "B" then some [rowB] else none)
    "A" "B" [rowA] [rowB]
    rfl rfl rfl (by decide) (by decide) rfl rfl
  exact h

/-- **C9 (confirmed)**: a provider response with no extractable JSON
payload after fence-stripping is handled like a transient error: the
item gets no write, there is no long cooldown and no index rewind (the
item is attempted exactly once, one short wait is taken), and the loop
advances and processes the next item normally. -/
theorem C9_parse_error_skips (a b : Spot)
    (behavior : Nat → Nat → ProviderOutcome)
    (parse : String → Option (List TransRow))
    (raw t1 : String) (r1 : List TransRow)
    (h00 : behavior 0 0 = ProviderOutcome.respond raw)
    (hbad : parse (stripFences raw) = none)
    (h10 : behavior 1 0 = ProviderOutcome.respond t1)
    (hp1 : parse (stripFences t1) = some r1) :
    translateRun behavior parse [a, b] 2 (initState 2)
      = ⟨2, [1, 1], writesOfRows r1, 0, 1⟩ := by
  simp [translateRun, initState, h00, hbad, h10, hp1, List.set, List.getD]

/-- Witness for C9: the first response is prose with no JSON. -/
theorem C9_parse_error_skips_witness :
    translateRun
        (fun i _ => if i = 0 then ProviderOutcome.respond "no parsable data"
          else ProviderOutcome.respond "B")
        (fun s => if s = "B" then some [rowB] else none)
        store2 2 (initState 2)
      = ⟨2, [1, 1], writesOfRows [rowB], 0, 1⟩ :=
  C9_parse_error_skips store2[0] store2[1]
    (fun i _ => if i = 0 then ProviderOutcome.respond "no parsable data"
      else ProviderOutcome.respond "B")
    (fun s => if s = "B" then some [rowB] else none)
    "no parsable data" "B" [rowB]
    rfl (by decide) rfl (by decide)

/-- **C10 counterexample**: the entry value `"0"` (a string) is truthy
and numeric, so the guard passes and `parseInt("0") = 0` is written —
the pipeline can persist a year of 0, refuting the nonzero-integer
invariant. -/
theorem C10_year_writer_counterexample :
    applyYearMap [("123", JsVal.jstr "0")] = [("123", some 0)] ∧
    ¬ (∀ p ∈ applyYearMap [("123", JsVal.jstr "0")],
        ∀ n : Int, p.2 = some n → n ≠ 0) := by
  refine ⟨by decide, fun h => ?_⟩
  exact h ("123", some 0) (by decide) 0 rfl rfl

/-- **C10** (amended). A year write happens only for an entry whose
value is truthy and non-NaN, and the written value is `parseInt` of it;
an id with a number-valued entry only ever gets that nonzero integer
written, and an id absent from the map gets no write — but a truthy
numeric *string* entry such as `"0"` can persist 0. -/
theorem C10_year_writer_amended (entries : List (String × JsVal)) :
    (∀ i w, (i, w) ∈ applyYearMap entries →
      ∃ v, (i, v) ∈ entries ∧ jsTruthy v = true ∧ jsIsNaN v = false ∧
        w = jsParseInt v) ∧
    (∀ i (n : Int) w, (i, w) ∈ applyYearMap entries →
      (∀ v, (i, v) ∈ entries → v = JsVal.jnum n) →
      w = some n ∧ n ≠ 0) ∧
    (∀ i, (∀ v, (i, v) ∉ entries) →
      ∀ w, (i, w) ∉ applyYearMap entries) := by
  have hmain : ∀ i w, (i, w) ∈ applyYearMap entries →
      ∃ v, (i, v) ∈ entries ∧ jsTruthy v = true ∧ jsIsNaN v = false ∧
        w = jsParseInt v := by
    intro i w hw
    induction entries with
    | nil => simp [applyYearMap] at hw
    | cons e rest ih =>
      unfold applyYearMap at hw
      rw [List.flatMap_cons] at hw
      rcases List.mem_append.mp hw with hhead | htail
      · by_cases hg : jsTruthy e.2 && !jsIsNaN e.2
        · rw [if_pos hg] at hhead
          simp only [List.mem_singleton, Prod.mk.injEq] at hhead
          obtain ⟨hi, hwv⟩ := hhead
          have hg1 : jsTruthy e.2 = true := by
            cases htv : jsTruthy e.2
            · rw [htv] at hg; simp at hg
            · rfl
          have hg2 : jsIsNaN e.2 = false := by
            cases hnv : jsIsNaN e.2
            · rfl
            · rw [hnv] at hg; simp at hg
          refine ⟨e.2, ?_, hg1, hg2, hwv⟩
          rw [hi]
          exact List.mem_cons_self _ _
        · rw [if_neg hg] at hhead
          simp at hhead
      · obtain ⟨v, hv, h1, h2, h3⟩ := ih htail
        exact ⟨v, List.mem_cons_of_mem _ hv, h1, h2, h3⟩
  refine ⟨hmain, fun i n w hw hall => ?_, fun i hnone w hw => ?_⟩
  · obtain ⟨v, hv, htr, _, hpw⟩ := hmain i w hw
    have hvn := hall v hv
    subst hvn
    refine ⟨hpw, ?_⟩
    simpa [jsTruthy] using htr
  · obtain ⟨v, hv, -, -, -⟩ := hmain i w hw
    exact hnone v hv

/-- Witness for C10 (amended) at a singleton integer entry. -/
theorem C10_year_writer_amended_witness :
    ∃ v, ("123", v) ∈ [("123", JsVal.jnum 1603)] ∧ jsTruthy v = true ∧
      jsIsNaN v = false ∧ (some (1603 : Int) : Option Int) = jsParseInt v :=
  (C10_year_writer_amended [("123", JsVal.jnum 1603)]).1 "123"
    (some 1603) (by decide)
